import Mathlib

/-!
Shallow embedding of the file-management-agent repository.

The embedding covers the components the claims are about:
  - `FileTools` (src/tools/tools.py): path resolution (`_resolve`), file
    CRUD (`read_file`, `write_file`, `delete_file`, `list_files`), and the
    RAG entry point `answer_question_about_files`.
  - `VectorStoreManager` (src/rag/vector_store_manager.py): the chunk
    index (`add_file`, `remove_file`, `rebuild_index_from_workspace`,
    `search`).
  - `FileAgent` (src/agent/agent_core.py): the query router
    (`_is_query_on_topic`, `plan`).

Modelling choices:
  - File system paths are lists of components (`PathC`); the workspace is a
    flat association list from resolved absolute paths to UTF-8 text, which
    matches how the source uses the file system (directories are implicit,
    created on demand by `write_file`).  Symlinks are not modelled.
  - Python string operations used by the source (`str.strip`, `str.upper`,
    `str.startswith`, the `in` substring test, `pathlib.Path` joining and
    `resolve()`, `Path.name`) are reimplemented on `List Char` /
    `List String` so that every definition is executable by the kernel.
  - The external langchain / FAISS collaborators are modelled at the
    granularity the source uses them: the text splitter as a windowing
    function over characters (`splitText`), embeddings are dropped and the
    FAISS similarity ranking is a parameter (`rank`), and the LLMs
    (classifier, generator, agent executor) are parameters of `plan`.
-/

/-- Error taxonomy of the source: `ValueError("Access denied ...")` in
`FileTools._resolve`, `FileNotFoundError` in `read_file` / `delete_file`,
and any exception escaping a vector-store operation. -/
inductive AgentErr where
  | accessDenied
  | notFound
  | indexFailure
deriving DecidableEq

deriving instance DecidableEq for Except

/-- Whitespace characters stripped by the Python `str.strip()` call in
`FileTools._resolve`. -/
def pyIsSpace (c : Char) : Bool :=
  c = ' ' || c = '\t' || c = '\n' || c = '\r' || c = Char.ofNat 11 || c = Char.ofNat 12

/-- Characters stripped by the second strip in `FileTools._resolve`,
namely `.strip("'\x22 ")`: single quote, double quote, space. -/
def isQuoteOrSpace (c : Char) : Bool :=
  c = Char.ofNat 39 || c = Char.ofNat 34 || c = ' '

/-- Drop the characters satisfying `p` from both ends of a list, as the
Python `str.strip` family does. -/
def dropEndsWhile (p : Char → Bool) (cs : List Char) : List Char :=
  ((cs.dropWhile p).reverse.dropWhile p).reverse

/-- Python `s.strip()`. -/
def pyStrip (s : String) : String :=
  String.mk (dropEndsWhile pyIsSpace s.toList)

/-- Python `s.strip("'\x22 ")`. -/
def stripQuotes (s : String) : String :=
  String.mk (dropEndsWhile isQuoteOrSpace s.toList)

/-- Python `s.upper()` (faithful on ASCII, which is all the source
compares against). -/
def pyUpper (s : String) : String :=
  String.mk (s.toList.map Char.toUpper)

/-- Python substring test `pat in s`. -/
def containsSub (s pat : String) : Bool :=
  s.toList.tails.any (fun t => pat.toList.isPrefixOf t)

/-- Python `s.startswith(pre)`. -/
def startsWithStr (pre s : String) : Bool :=
  pre.toList.isPrefixOf s.toList

/-- Absolute POSIX path, as a list of components (no empty components). -/
abbrev PathC := List String

/-- Splitting of a character list at `/`, the accumulator holding the
current component reversed. -/
def splitOnSlash : List Char → List Char → List (List Char)
  | [], acc => [acc.reverse]
  | c :: rest, acc =>
      if c = '/' then acc.reverse :: splitOnSlash rest []
      else splitOnSlash rest (c :: acc)

/-- Components of a path string (empty components dropped, as both
`pathlib` and POSIX do). -/
def parsePath (s : String) : List String :=
  ((splitOnSlash s.toList []).map String.mk).filter (fun c => c ≠ "")

/-- Whether a path string is absolute. -/
def isAbsolute (s : String) : Bool :=
  match s.toList with
  | c :: _ => c = '/'
  | [] => false

/-- One step of lexical path normalization: `.` is dropped, `..` pops the
last component (staying at the root when already there), anything else is
appended.  This is what `Path.resolve()` does on the component level,
symlinks aside. -/
def normStep (acc : List String) (c : String) : List String :=
  if c = "." then acc
  else if c = ".." then acc.dropLast
  else acc ++ [c]

/-- Lexical normalization of a component list, as `Path.resolve()`. -/
def normalizePath (cs : List String) : List String :=
  cs.foldl normStep []

/-- Characters of the rendering of a component list, joined by `/`. -/
def joinComponents : List String → List Char
  | [] => []
  | [c] => c.toList
  | c :: rest => c.toList ++ '/' :: joinComponents rest

/-- Python `str(path)` for an absolute path: `/` followed by the
components joined with `/`. -/
def renderPath (p : PathC) : String :=
  String.mk ('/' :: joinComponents p)

/-- Python `Path.name`: the last component (empty for the root). -/
def pathName (p : PathC) : String :=
  (p.getLast?).getD ""

/-- One indexed chunk: the stored source attribution (`metadata["source"]`,
which `add_file` sets to `file_path.name`) and the chunk text.  The
embedding vector is dropped: the claims quantify over retrieval behavior
modulo embedding nondeterminism. -/
structure IndexEntry where
  source : String
  text : String
deriving DecidableEq

/-- Joint state of the workspace directory tree and the vector store:
`files` maps resolved absolute paths to their text, `index` is the
in-memory FAISS docstore content, `persisted` its on-disk copy written by
`save_local`. -/
structure WState where
  files : List (PathC × String)
  index : List IndexEntry
  persisted : List IndexEntry
deriving DecidableEq

/-- Lookup of a path in the workspace. -/
def lookupFile : List (PathC × String) → PathC → Option String
  | [], _ => none
  | e :: rest, p => if e.1 = p then some e.2 else lookupFile rest p

/-- Overwrite-or-create of a path, as `Path.write_text` after
`mkdir(parents=True)`. -/
def upsertFile (fs : List (PathC × String)) (p : PathC) (c : String) :
    List (PathC × String) :=
  (fs.filter (fun e => e.1 ≠ p)) ++ [(p, c)]

/-- Removal of a path, as `Path.unlink`. -/
def eraseFile (fs : List (PathC × String)) (p : PathC) : List (PathC × String) :=
  fs.filter (fun e => e.1 ≠ p)

/-- Fuel-driven chunking: windows of 1000 characters with stride 800
(hence 200 characters of backward overlap); a text of at most 1000
characters is a single chunk.  The fuel (initially the length) only makes
the recursion structural; it never runs out. -/
def chunkListAux : Nat → List Char → List (List Char)
  | 0, cs => [cs]
  | fuel + 1, cs =>
      if cs.length ≤ 1000 then [cs]
      else cs.take 1000 :: chunkListAux fuel (cs.drop 800)

/-- Models the external `RecursiveCharacterTextSplitter` exactly as
configured in `VectorStoreManager.__init__` (`chunk_size=1000`,
`chunk_overlap=200`, `length_function=len`): fixed windows of 1000
characters with 200-character backward overlap. -/
def splitText (s : String) : List String :=
  (chunkListAux s.toList.length s.toList).map String.mk

/-- Universal-newlines translation performed by the Python
`Path.read_text` calls of the source (text mode with the default
`newline=None`): each `\r\n` pair and each lone `\r` is read back as
`\n`.  The fuel (initially the length) only makes the recursion
structural; it never runs out. -/
def univNewlinesAux : Nat → List Char → List Char
  | 0, cs => cs
  | _ + 1, [] => []
  | fuel + 1, c :: rest =>
      if c = '\r' then
        match rest with
        | '\n' :: rest2 => '\n' :: univNewlinesAux fuel rest2
        | _ => '\n' :: univNewlinesAux fuel rest
      else c :: univNewlinesAux fuel rest

/-- Python `read_text` newline translation on a string.  The matching
`write_text` direction is the identity here: with `newline=None`, writing
translates `\n` to `os.linesep`, which is `\n` on the POSIX systems the
source targets. -/
def univNewlines (s : String) : String :=
  String.mk (univNewlinesAux s.toList.length s.toList)

namespace VSM

/-- IndexEntries produced for one file by `VectorStoreManager.add_file`:
one per chunk, each carrying `source := file_path.name` (the basename, not
the path relative to the workspace root). -/
def chunksOf (p : PathC) (content : String) : List IndexEntry :=
  (splitText content).map (fun t => { source := pathName p, text := t })

/-- Models `VectorStoreManager.add_file(file_path, save)`: reads the file
content with `read_text` (hence with universal-newlines translation),
appends its chunks to the store, and persists when `save` is true.
Reading a missing file raises, which the source does not catch. -/
def add_file (st : WState) (p : PathC) (save : Bool) : Except AgentErr WState :=
  match lookupFile st.files p with
  | none => .error .notFound
  | some content =>
      let ix := st.index ++ chunksOf p (univNewlines content)
      .ok { st with index := ix, persisted := if save then ix else st.persisted }

/-- Models `VectorStoreManager.remove_file(filename)`: a no-op on an empty
store or when no stored entry has `metadata["source"] == filename`;
otherwise the matching entries are deleted and the store persisted.  The
`fault` flag models an exception raised by the underlying vector store
(`delete` or `save_local`), which the source does not catch. -/
def remove_file (fault : Bool) (st : WState) (filename : String) :
    Except AgentErr WState :=
  if fault then .error .indexFailure
  else if st.index = [] then .ok st
  else if st.index.filter (fun e => e.source = filename) = [] then .ok st
  else
    let ix := st.index.filter (fun e => ¬ e.source = filename)
    .ok { st with index := ix, persisted := ix }

/-- Models `VectorStoreManager.rebuild_index_from_workspace`: the
persisted index is discarded (`shutil.rmtree`), an empty store is created,
every current file whose absolute path string does not contain
`"faiss_index"` is added with `save=False` (appending `chunksOf` for each,
exactly what `add_file` does on a present file), and the result is
persisted once at the end by `save_local`. -/
def rebuild_index_from_workspace (st : WState) : WState :=
  let keep := st.files.filter (fun e => ¬ containsSub (renderPath e.1) "faiss_index")
  let entries := keep.foldl (fun ix e => ix ++ chunksOf e.1 (univNewlines e.2)) []
  { st with index := entries, persisted := entries }

/-- Sentinel returned by `VectorStoreManager.search` when the similarity
search yields no results. -/
def sentinel : String := "No relevant information found in the documents."

/-- Header line with which `VectorStoreManager.search` initializes the
context string. -/
def header : String := "Relevant excerpts from documents found:\n\n"

/-- Block appended to the context for one retrieved document. -/
def excerptBlock (e : IndexEntry) : String :=
  "--- Excerpt from: " ++ e.source ++ " ---\n" ++ e.text ++ "\n\n"

/-- Context accumulation loop of `VectorStoreManager.search`. -/
def formatContext (results : List IndexEntry) : String :=
  results.foldl (fun acc e => acc ++ excerptBlock e) header

/-- Models `VectorStoreManager.search(query)`: `similarity_search(query,
k=3)` returns the stored entries ranked by the (embedding-dependent)
similarity to the query, truncated to 3; with zero results the sentinel is
returned, otherwise the formatted context.  The ranking is the parameter
`rank`. -/
def search (rank : String → List IndexEntry → List IndexEntry)
    (st : WState) (q : String) : String :=
  let results := (rank q st.index).take 3
  if results = [] then sentinel else formatContext results

end VSM

namespace FileTools

/-- Models `FileTools._resolve` up to the containment check: strip
whitespace then quote characters, join to the base path (an absolute
filename replaces the base, as `pathlib` join does), and lexically
normalize.  `base` is the component list of the already-resolved
`self.base_path`. -/
def resolveCandidate (base : PathC) (filename : String) : PathC :=
  let safe := stripQuotes (pyStrip filename)
  if isAbsolute safe then normalizePath (parsePath safe)
  else normalizePath (base ++ parsePath safe)

/-- Models `FileTools._resolve`: the candidate is returned when
`str(candidate).startswith(str(self.base_path))`, otherwise
`ValueError("Access denied ...")` is raised. -/
def resolveName (base : PathC) (filename : String) : Except AgentErr PathC :=
  let candidate := resolveCandidate base filename
  if startsWithStr (renderPath base) (renderPath candidate) then .ok candidate
  else .error .accessDenied

/-- Models `FileTools.list_files`: the paths of all files relative to the
base, those under the index directory excluded. -/
def list_files (base : PathC) (st : WState) : List String :=
  (st.files.map (fun e => String.intercalate "/" (e.1.drop base.length))).filter
    (fun f => ¬ startsWithStr "faiss_index" f)

/-- Models `FileTools.read_file`: resolve, fail when missing, else return
`p.read_text(encoding="utf-8")` — a text-mode read with the default
`newline=None`, so `\r\n` and lone `\r` in the stored content come back as
`\n`. -/
def read_file (base : PathC) (st : WState) (filename : String) :
    Except AgentErr String :=
  match resolveName base filename with
  | .error e => .error e
  | .ok p =>
      match lookupFile st.files p with
      | none => .error .notFound
      | some c => .ok (univNewlines c)

/-- Models `FileTools.write_file`: resolve, write the text (creating
parents), then `add_file` with `save=True`.  The state is returned beside
the outcome because the Python mutations performed before an exception
persist. -/
def write_file (base : PathC) (st : WState) (filename content : String) :
    WState × Except AgentErr String :=
  match resolveName base filename with
  | .error e => (st, .error e)
  | .ok p =>
      let st1 := { st with files := upsertFile st.files p content }
      match VSM.add_file st1 p true with
      | .error e => (st1, .error e)
      | .ok st2 =>
          (st2, .ok ("Wrote " ++ toString content.length ++ " characters to '"
            ++ filename ++ "' and updated the index."))

/-- Models `FileTools.delete_file`: resolve, check existence, call
`remove_file` with the raw `filename` argument, and only then unlink.  An
exception from `remove_file` (the `fault` flag) propagates before the
unlink, leaving the workspace untouched. -/
def delete_file (fault : Bool) (base : PathC) (st : WState) (filename : String) :
    WState × Except AgentErr String :=
  match resolveName base filename with
  | .error e => (st, .error e)
  | .ok p =>
      if (lookupFile st.files p).isNone then (st, .error .notFound)
      else
        match VSM.remove_file fault st filename with
        | .error e => (st, .error e)
        | .ok st1 =>
            ({ st1 with files := eraseFile st1.files p },
             .ok ("Deleted '" ++ filename ++ "' and removed it from the index."))

/-- Models `FileTools.answer_question_about_files`: a bare delegation to
`VectorStoreManager.search`. -/
def answer_question_about_files (rank : String → List IndexEntry → List IndexEntry)
    (st : WState) (q : String) : String :=
  VSM.search rank st q

end FileTools

namespace FileAgent

/-- Models `FileAgent._is_query_on_topic` applied to the classifier reply
`raw`: `response.content.strip().upper() == "ON-TOPIC"`. -/
def is_query_on_topic (raw : String) : Bool :=
  pyUpper (pyStrip raw) == "ON-TOPIC"

/-- Refusal emitted by `FileAgent.plan` when the fallback search finds
nothing. -/
def refusal_message : String :=
  "I am a file management assistant. I cannot answer off-topic or general knowledge questions."

/-- Grounding prompt built by `FileAgent.plan` for the direct-generation
fallback. -/
def final_prompt (ctx q : String) : String :=
  "You are a helpful assistant. Please answer the user's question based "
    ++ "only on the following context provided.\n\n"
    ++ "CONTEXT:\n" ++ ctx ++ "\n\n"
    ++ "USER'S QUESTION: " ++ q

/-- Outcome of `FileAgent.plan`, one constructor per `return` site of the
source: the tool-execution path (`agent_executor.invoke`), the refusal,
and the grounded direct generation. -/
inductive PlanOutput where
  | toolPath (out : String)
  | declined (out : String)
  | grounded (out : String)
deriving DecidableEq

/-- Discriminator for the tool-execution outcome of `plan`. -/
def PlanOutput.isTool : PlanOutput → Bool
  | .toolPath _ => true
  | _ => false

/-- Models `FileAgent.plan`, with the external collaborators as
parameters: `raw` is the classifier reply content, `exec` the
AgentExecutor (which may mutate the workspace), `gen` the main LLM, and
`rank` the similarity ranking.  On-topic queries go to `exec`; otherwise
the fallback searches, declines when the context contains the substring
`"No relevant information found"`, and generates from the context
otherwise. -/
def plan (raw : String) (rank : String → List IndexEntry → List IndexEntry)
    (exec : WState → String → WState × String) (gen : String → String)
    (st : WState) (q : String) : WState × PlanOutput :=
  if is_query_on_topic raw then
    let r := exec st q
    (r.1, .toolPath r.2)
  else
    let ctx := FileTools.answer_question_about_files rank st q
    if containsSub ctx "No relevant information found" then
      (st, .declined refusal_message)
    else
      (st, .grounded (gen (final_prompt ctx q)))

end FileAgent

/-!
Helper lemmas about the embedding, shared by the claim theorems below.
-/

theorem strAppendEmpty (s : String) : s ++ "" = s := by
  cases s with
  | mk a =>
      show String.mk (a ++ []) = String.mk a
      rw [List.append_nil]

theorem strAppendAssoc (a b c : String) : a ++ b ++ c = a ++ (b ++ c) := by
  cases a with
  | mk la =>
      cases b with
      | mk lb =>
          cases c with
          | mk lc =>
              show String.mk (la ++ lb ++ lc) = String.mk (la ++ (lb ++ lc))
              rw [List.append_assoc]

theorem strDataAppend (s t : String) : (s ++ t).data = s.data ++ t.data := rfl

theorem lookup_filter_ne (fs : List (PathC × String)) (p : PathC) :
    lookupFile (fs.filter (fun e => e.1 ≠ p)) p = none := by
  induction fs with
  | nil => rfl
  | cons e rest ih =>
      by_cases h : e.1 = p <;> simpa [List.filter_cons, h, lookupFile] using ih

theorem lookup_filter_ne_bang (fs : List (PathC × String)) (p : PathC) :
    lookupFile (fs.filter (fun e => !decide (e.1 = p))) p = none := by
  simpa using lookup_filter_ne fs p

theorem lookup_append_none (a b : List (PathC × String)) (p : PathC)
    (h : lookupFile a p = none) : lookupFile (a ++ b) p = lookupFile b p := by
  induction a with
  | nil => rfl
  | cons e rest ih =>
      by_cases he : e.1 = p
      · simp [lookupFile, he] at h
      · have h' : lookupFile rest p = none := by simpa [lookupFile, he] using h
        simpa [List.cons_append, lookupFile, he] using ih h'

theorem lookup_upsert (fs : List (PathC × String)) (p : PathC) (c : String) :
    lookupFile (upsertFile fs p c) p = some c := by
  unfold upsertFile
  rw [lookup_append_none _ _ _ (lookup_filter_ne fs p)]
  simp [lookupFile]

theorem filter_ne_then_eq (l : List IndexEntry) (f : String) :
    (l.filter (fun e => ¬ e.source = f)).filter (fun e => e.source = f) = [] := by
  induction l with
  | nil => rfl
  | cons e rest ih =>
      by_cases h : e.source = f <;> simp [List.filter_cons, h, ih]

theorem foldl_excerpt_extends (rs : List IndexEntry) (acc : String) :
    ∃ t, rs.foldl (fun a e => a ++ VSM.excerptBlock e) acc = acc ++ t := by
  induction rs generalizing acc with
  | nil => exact ⟨"", (strAppendEmpty acc).symm⟩
  | cons e rest ih =>
      obtain ⟨t, ht⟩ := ih (acc ++ VSM.excerptBlock e)
      exact ⟨VSM.excerptBlock e ++ t, by rw [List.foldl_cons, ht, strAppendAssoc]⟩

theorem formatContext_ne_sentinel (rs : List IndexEntry) :
    VSM.formatContext rs ≠ VSM.sentinel := by
  obtain ⟨t, ht⟩ := foldl_excerpt_extends rs VSM.header
  unfold VSM.formatContext
  rw [ht]
  intro h
  have hpre : "Relevant".toList <+: (VSM.header ++ t).data := by
    rw [strDataAppend]
    have h1 : "Relevant".toList <+: VSM.header.data := by decide
    exact h1.trans (List.prefix_append _ _)
  rw [h] at hpre
  exact absurd hpre (by decide)

theorem univNewlinesAux_no_cr (fuel : Nat) : ∀ cs : List Char,
    cs.contains '\r' = false → univNewlinesAux fuel cs = cs := by
  induction fuel with
  | zero => intro cs _; rfl
  | succ n ih =>
      intro cs h
      cases cs with
      | nil => rfl
      | cons a rest =>
          have ha : ¬ a = '\r' := by
            intro e
            rw [e] at h
            simp [List.contains_cons] at h
          have hr : rest.contains '\r' = false := by
            simp only [List.contains_cons, Bool.or_eq_false_iff] at h
            exact h.2
          simp [univNewlinesAux, if_neg ha, ih rest hr]

theorem univNewlines_exact_of_no_cr (c : String) (h : c.toList.contains '\r' = false) :
    univNewlines c = c := by
  unfold univNewlines
  rw [univNewlinesAux_no_cr _ _ h]
  cases c
  rfl

/-!
Claim theorems.
-/

/-- C1 (counterexample): with workspace root `/root/workspace`, the
filename `../workspace2/secret` resolves to `/root/workspace2/secret`,
which lies outside the root (the root is not a component-wise prefix of
it), yet `_resolve` returns it instead of failing, because the guard is a
string-prefix test on the rendered paths and `/root/workspace2/secret`
starts with the string `/root/workspace`.  Moreover a filename containing
a `..` segment that resolves back inside the root is accepted rather than
rejected. -/
theorem C1_counterexample :
    FileTools.resolveName ["root", "workspace"] "../workspace2/secret" =
      .ok ["root", "workspace2", "secret"] ∧
    List.isPrefixOf ["root", "workspace"] ["root", "workspace2", "secret"] = false ∧
    FileTools.resolveName ["root", "workspace"] "a/../b.txt" =
      .ok ["root", "workspace", "b.txt"] := by decide

/-- C1 (amended): `_resolve` fails with AccessDenied exactly when the
string rendering of the lexically resolved candidate path does not start
with the string rendering of the workspace root; otherwise the candidate
is returned.  So every returned path extends the root as a string, but
sibling directories whose rendering extends the root string (such as
`/root/workspace2` for root `/root/workspace`) pass, and `..` segments
that resolve back inside the root pass. -/
theorem C1_resolve_characterization (base : PathC) (f : String) :
    (FileTools.resolveName base f = .error AgentErr.accessDenied ∨
      FileTools.resolveName base f = .ok (FileTools.resolveCandidate base f)) ∧
    (FileTools.resolveName base f = .error AgentErr.accessDenied ↔
      startsWithStr (renderPath base) (renderPath (FileTools.resolveCandidate base f)) = false) := by
  unfold FileTools.resolveName
  by_cases h : startsWithStr (renderPath base) (renderPath (FileTools.resolveCandidate base f)) = true
  · simp [h]
  · have h' : startsWithStr (renderPath base)
        (renderPath (FileTools.resolveCandidate base f)) = false := by simpa using h
    simp [h']

/-- C2 (code bug, evaluated): writing `a.txt` with content `alpha` and
then overwriting it with `beta` leaves the index holding the chunk derived
from the first content next to the chunk of the second: `write_file` only
calls `add_file` and never purges the entries of the overwritten file, so
stale and duplicate entries for the file survive the second write,
contrary to the claimed invariant. -/
theorem C2_overwrite_keeps_stale_entries :
    ((FileTools.write_file ["ws"]
        (FileTools.write_file ["ws"] ⟨[], [], []⟩ "a.txt" "alpha").1 "a.txt" "beta").1).index =
      [⟨"a.txt", "alpha"⟩, ⟨"a.txt", "beta"⟩] ∧
    ⟨"a.txt", "alpha"⟩ ∈ ((FileTools.write_file ["ws"]
        (FileTools.write_file ["ws"] ⟨[], [], []⟩ "a.txt" "alpha").1 "a.txt" "beta").1).index := by
  decide

/-- C3 (code bug, evaluated): after `write("dir/notes.txt", ...)` and
`delete("dir/notes.txt")`, the delete reports success and the file is gone
from `list()`, but the IndexEntry derived from the file remains (it was
stored under the basename `notes.txt` while `remove_file` matched the full
name `dir/notes.txt`), and a subsequent search still returns the deleted
file's excerpt. -/
theorem C3_subdir_delete_leaves_index_entries :
    (FileTools.delete_file false ["ws"]
        (FileTools.write_file ["ws"] ⟨[], [], []⟩ "dir/notes.txt"
          "The meeting is on Tuesday.").1 "dir/notes.txt").2 =
      .ok "Deleted 'dir/notes.txt' and removed it from the index." ∧
    FileTools.list_files ["ws"]
      (FileTools.delete_file false ["ws"]
        (FileTools.write_file ["ws"] ⟨[], [], []⟩ "dir/notes.txt"
          "The meeting is on Tuesday.").1 "dir/notes.txt").1 = [] ∧
    (FileTools.delete_file false ["ws"]
        (FileTools.write_file ["ws"] ⟨[], [], []⟩ "dir/notes.txt"
          "The meeting is on Tuesday.").1 "dir/notes.txt").1.index =
      [⟨"notes.txt", "The meeting is on Tuesday."⟩] ∧
    VSM.search (fun _ es => es)
      (FileTools.delete_file false ["ws"]
        (FileTools.write_file ["ws"] ⟨[], [], []⟩ "dir/notes.txt"
          "The meeting is on Tuesday.").1 "dir/notes.txt").1 "When is the meeting?" =
      "Relevant excerpts from documents found:\n\n--- Excerpt from: notes.txt ---\nThe meeting is on Tuesday.\n\n" := by
  decide

/-- C4 (code bug, evaluated): after the operation sequence
`write("a.txt", "alpha"); write("a.txt", "beta")`, the incrementally
maintained index still holds the chunk of the overwritten content while
`rebuild_index_from_workspace` on the final file set holds only the chunk
of the final content, so the two indexes hold different sets of live
chunks and retrieval behavior differs, contrary to the claimed
equivalence. -/
theorem C4_incremental_differs_from_rebuild :
    ((FileTools.write_file ["ws"]
        (FileTools.write_file ["ws"] ⟨[], [], []⟩ "a.txt" "alpha").1 "a.txt" "beta").1).index =
      [⟨"a.txt", "alpha"⟩, ⟨"a.txt", "beta"⟩] ∧
    (VSM.rebuild_index_from_workspace
      (FileTools.write_file ["ws"]
        (FileTools.write_file ["ws"] ⟨[], [], []⟩ "a.txt" "alpha").1 "a.txt" "beta").1).index =
      [⟨"a.txt", "beta"⟩] ∧
    ⟨"a.txt", "alpha"⟩ ∉ (VSM.rebuild_index_from_workspace
      (FileTools.write_file ["ws"]
        (FileTools.write_file ["ws"] ⟨[], [], []⟩ "a.txt" "alpha").1 "a.txt" "beta").1).index ∧
    VSM.search (fun _ es => es)
        ((FileTools.write_file ["ws"]
          (FileTools.write_file ["ws"] ⟨[], [], []⟩ "a.txt" "alpha").1 "a.txt" "beta").1) "q" ≠
      VSM.search (fun _ es => es)
        (VSM.rebuild_index_from_workspace
          (FileTools.write_file ["ws"]
            (FileTools.write_file ["ws"] ⟨[], [], []⟩ "a.txt" "alpha").1 "a.txt" "beta").1) "q" := by
  decide

/-- C5 (counterexample): with an index whose single entry text contains
the phrase `No relevant information found`, the fallback search returns a
populated result different from the sentinel, yet `plan` on the fallback
path declines with the fixed refusal instead of proceeding to grounded
generation, because the router tests for the sentinel by substring
containment on the formatted context. -/
theorem C5_counterexample :
    VSM.search (fun _ es => es)
      ⟨[(["ws", "trap.txt"], "No relevant information found in my drawer.")],
        [⟨"trap.txt", "No relevant information found in my drawer."⟩],
        [⟨"trap.txt", "No relevant information found in my drawer."⟩]⟩ "anything" ≠
      VSM.sentinel ∧
    (FileAgent.plan "OFF-TOPIC" (fun _ es => es) (fun s _ => (s, "")) (fun _ => "answer")
      ⟨[(["ws", "trap.txt"], "No relevant information found in my drawer.")],
        [⟨"trap.txt", "No relevant information found in my drawer."⟩],
        [⟨"trap.txt", "No relevant information found in my drawer."⟩]⟩ "anything").2 =
      FileAgent.PlanOutput.declined FileAgent.refusal_message := by decide

/-- C5 (amended): `search(q)` returns the sentinel exactly when the
similarity search yields zero results, and the sentinel contains the
phrase `No relevant information found`; but the router distinguishes the
sentinel by substring containment, so on the fallback path `plan` reaches
DECLINED with the fixed refusal exactly when the search output contains
that phrase (which a populated result may also do), and proceeds to
grounded generation exactly when it does not. -/
theorem C5_sentinel_by_substring (raw : String)
    (rank : String → List IndexEntry → List IndexEntry)
    (exec : WState → String → WState × String) (gen : String → String)
    (st : WState) (q : String)
    (hoff : FileAgent.is_query_on_topic raw = false) :
    (VSM.search rank st q = VSM.sentinel ↔ (rank q st.index).take 3 = []) ∧
    containsSub VSM.sentinel "No relevant information found" = true ∧
    ((FileAgent.plan raw rank exec gen st q).2 =
        FileAgent.PlanOutput.declined FileAgent.refusal_message ↔
      containsSub (VSM.search rank st q) "No relevant information found" = true) ∧
    ((FileAgent.plan raw rank exec gen st q).2 =
        FileAgent.PlanOutput.grounded (gen (FileAgent.final_prompt (VSM.search rank st q) q)) ↔
      containsSub (VSM.search rank st q) "No relevant information found" = false) := by
  refine ⟨?_, by decide, ?_, ?_⟩
  · unfold VSM.search
    by_cases h : (rank q st.index).take 3 = []
    · simp [h]
    · simp [h, formatContext_ne_sentinel]
  · unfold FileAgent.plan FileTools.answer_question_about_files
    rw [hoff]
    by_cases h : containsSub (VSM.search rank st q) "No relevant information found" = true <;>
      simp [h]
  · unfold FileAgent.plan FileTools.answer_question_about_files
    rw [hoff]
    by_cases h : containsSub (VSM.search rank st q) "No relevant information found" = true <;>
      simp [h]

/-- C5 (witness): the amended theorem applied to the empty workspace with
the identity ranking and an off-topic classifier verdict. -/
theorem C5_sentinel_by_substring_witness :
    (VSM.search (fun _ es => es) ⟨[], [], []⟩ "hi" = VSM.sentinel ↔
      ((⟨[], [], []⟩ : WState).index.take 3 = [])) ∧
    containsSub VSM.sentinel "No relevant information found" = true ∧
    ((FileAgent.plan "OFF-TOPIC" (fun _ es => es) (fun s _ => (s, "")) (fun _ => "generated")
        ⟨[], [], []⟩ "hi").2 = FileAgent.PlanOutput.declined FileAgent.refusal_message ↔
      containsSub (VSM.search (fun _ es => es) ⟨[], [], []⟩ "hi")
        "No relevant information found" = true) ∧
    ((FileAgent.plan "OFF-TOPIC" (fun _ es => es) (fun s _ => (s, "")) (fun _ => "generated")
        ⟨[], [], []⟩ "hi").2 = FileAgent.PlanOutput.grounded "generated" ↔
      containsSub (VSM.search (fun _ es => es) ⟨[], [], []⟩ "hi")
        "No relevant information found" = false) :=
  C5_sentinel_by_substring "OFF-TOPIC" (fun _ es => es) (fun s _ => (s, ""))
    (fun _ => "generated") ⟨[], [], []⟩ "hi" (by decide)

/-- C6 (confirmed): classification is fail-closed.  For every classifier
raw output whose normalization (strip then upper-case) is not exactly the
literal `ON-TOPIC`, the classifier helper returns false and `plan` takes
the retrieval-fallback path (declining or generating from context), never
the tool-execution path. -/
theorem C6_classification_fail_closed (raw : String)
    (rank : String → List IndexEntry → List IndexEntry)
    (exec : WState → String → WState × String) (gen : String → String)
    (st : WState) (q : String)
    (h : pyUpper (pyStrip raw) ≠ "ON-TOPIC") :
    FileAgent.is_query_on_topic raw = false ∧
    FileAgent.plan raw rank exec gen st q =
      (st,
        if containsSub (VSM.search rank st q) "No relevant information found"
        then FileAgent.PlanOutput.declined FileAgent.refusal_message
        else FileAgent.PlanOutput.grounded (gen (FileAgent.final_prompt (VSM.search rank st q) q))) ∧
    (FileAgent.plan raw rank exec gen st q).2.isTool = false := by
  have hb : FileAgent.is_query_on_topic raw = false := by
    unfold FileAgent.is_query_on_topic
    exact beq_eq_false_iff_ne.mpr h
  refine ⟨hb, ?_, ?_⟩
  · unfold FileAgent.plan FileTools.answer_question_about_files
    rw [hb]
    by_cases hc : containsSub (VSM.search rank st q) "No relevant information found" = true <;>
      simp [hc]
  · unfold FileAgent.plan FileTools.answer_question_about_files
    rw [hb]
    by_cases hc : containsSub (VSM.search rank st q) "No relevant information found" = true <;>
      simp [hc, FileAgent.PlanOutput.isTool]

/-- C6 (witness): the fail-closed theorem applied to the ambiguous
classifier output `MAYBE` on the empty workspace. -/
theorem C6_classification_fail_closed_witness :
    FileAgent.is_query_on_topic "MAYBE" = false ∧
    FileAgent.plan "MAYBE" (fun _ es => es) (fun s _ => (s, "done")) (fun _ => "gen")
        ⟨[], [], []⟩ "q" =
      (⟨[], [], []⟩,
        if containsSub (VSM.search (fun _ es => es) ⟨[], [], []⟩ "q")
            "No relevant information found"
        then FileAgent.PlanOutput.declined FileAgent.refusal_message
        else FileAgent.PlanOutput.grounded "gen") ∧
    (FileAgent.plan "MAYBE" (fun _ es => es) (fun s _ => (s, "done")) (fun _ => "gen")
        ⟨[], [], []⟩ "q").2.isTool = false :=
  C6_classification_fail_closed "MAYBE" (fun _ es => es) (fun s _ => (s, "done"))
    (fun _ => "gen") ⟨[], [], []⟩ "q" (by decide)

/-- C7 (counterexample): writing `a\r\nb` and reading it back returns
`a\nb`, not the written content — `read_text` opens the file in text mode
with the default `newline=None`, so universal-newlines translation turns
`\r\n` (and lone `\r`) into `\n` on read and the exact roundtrip fails for
any content containing a carriage return. -/
theorem C7_counterexample :
    FileTools.read_file ["ws"]
      (FileTools.write_file ["ws"] ⟨[], [], []⟩ "crlf.txt" "a\r\nb").1 "crlf.txt" =
      .ok "a\nb" ∧
    "a\nb" ≠ "a\r\nb" := by decide

/-- C7 (amended): for every filename that resolves inside the workspace
and every text `c`, `write_file` reports the character count written and a
following `read_file` of the same filename returns `c` with
universal-newlines translation applied (`\r\n` and lone `\r` read back as
`\n`); the result is exactly `c` whenever `c` contains no carriage
return. -/
theorem C7_write_read_roundtrip (base : PathC) (st : WState) (f c : String) (p : PathC)
    (h : FileTools.resolveName base f = .ok p) :
    (FileTools.write_file base st f c).2 =
      .ok ("Wrote " ++ toString c.length ++ " characters to '" ++ f
        ++ "' and updated the index.") ∧
    FileTools.read_file base (FileTools.write_file base st f c).1 f =
      .ok (univNewlines c) ∧
    (univNewlines c = c ∨ c.toList.contains '\r' = true) := by
  refine ⟨?_, ?_, ?_⟩
  · simp [FileTools.write_file, VSM.add_file, h, lookup_upsert]
  · simp [FileTools.write_file, FileTools.read_file, VSM.add_file, h, lookup_upsert]
  · by_cases hcr : c.toList.contains '\r' = true
    · exact Or.inr hcr
    · exact Or.inl (univNewlines_exact_of_no_cr c (by simpa using hcr))

/-- C7 (witness): the amended round trip evaluated at `notes.txt` with the
carriage-return-free content `hi` in an empty workspace. -/
theorem C7_write_read_roundtrip_witness :
    (FileTools.write_file ["ws"] ⟨[], [], []⟩ "notes.txt" "hi").2 =
      .ok ("Wrote " ++ toString ("hi" : String).length ++ " characters to '" ++ "notes.txt"
        ++ "' and updated the index.") ∧
    FileTools.read_file ["ws"]
      (FileTools.write_file ["ws"] ⟨[], [], []⟩ "notes.txt" "hi").1 "notes.txt" =
      .ok (univNewlines "hi") ∧
    (univNewlines "hi" = "hi" ∨ ("hi" : String).toList.contains '\r' = true) :=
  C7_write_read_roundtrip ["ws"] ⟨[], [], []⟩ "notes.txt" "hi" ["ws", "notes.txt"] (by decide)

/-- C8 (confirmed): `rebuild_index_from_workspace` is idempotent — a
second rebuild on the unchanged workspace produces the identical state, so
any search afterwards returns the same result, and the rebuilt index is
persisted once at the end (persisted copy equals the in-memory index); no
duplicate entries accumulate because rebuild derives the index from the
file set alone, discarding the previous index. -/
theorem C8_rebuild_idempotent (st : WState)
    (rank : String → List IndexEntry → List IndexEntry) (q : String) :
    VSM.rebuild_index_from_workspace (VSM.rebuild_index_from_workspace st) =
      VSM.rebuild_index_from_workspace st ∧
    (VSM.rebuild_index_from_workspace st).persisted =
      (VSM.rebuild_index_from_workspace st).index ∧
    VSM.search rank (VSM.rebuild_index_from_workspace (VSM.rebuild_index_from_workspace st)) q =
      VSM.search rank (VSM.rebuild_index_from_workspace st) q :=
  ⟨rfl, rfl, rfl⟩

/-- C9 (confirmed): when the classifier verdict is not on-topic, `plan`
leaves the whole state (workspace file set and index) unchanged — the
fallback path only searches and generates, so no file is created,
overwritten or deleted, whatever the query says and whatever the
tool-executing collaborator would do. -/
theorem C9_offtopic_plan_preserves_workspace (raw : String)
    (rank : String → List IndexEntry → List IndexEntry)
    (exec : WState → String → WState × String) (gen : String → String)
    (st : WState) (q : String)
    (hoff : FileAgent.is_query_on_topic raw = false) :
    (FileAgent.plan raw rank exec gen st q).1 = st := by
  unfold FileAgent.plan
  rw [hoff]
  by_cases h : containsSub (FileTools.answer_question_about_files rank st q)
      "No relevant information found" = true
  · simp [h]
  · simp [h]

/-- C9 (witness): the frame theorem evaluated on an off-topic verdict for
a query phrased as a file-mutation command. -/
theorem C9_offtopic_plan_preserves_workspace_witness :
    (FileAgent.plan "OFF-TOPIC" (fun _ es => es) (fun s _ => (s, "done")) (fun _ => "gen")
      ⟨[], [], []⟩ "delete notes.txt").1 = (⟨[], [], []⟩ : WState) :=
  C9_offtopic_plan_preserves_workspace "OFF-TOPIC" (fun _ es => es)
    (fun s _ => (s, "done")) (fun _ => "gen") ⟨[], [], []⟩ "delete notes.txt" (by decide)

/-- C10 (counterexample): deleting `docs/report.txt` right after writing
it completes without error and removes the file, yet the IndexEntry
derived from that file remains in the index (stored under the basename),
so the system does reach a state where the file is gone from disk while
index entries from it remain. -/
theorem C10_counterexample :
    (FileTools.delete_file false ["ws"]
        (FileTools.write_file ["ws"] ⟨[], [], []⟩ "docs/report.txt" "quarterly figures").1
        "docs/report.txt").2 =
      .ok "Deleted 'docs/report.txt' and removed it from the index." ∧
    lookupFile (FileTools.delete_file false ["ws"]
        (FileTools.write_file ["ws"] ⟨[], [], []⟩ "docs/report.txt" "quarterly figures").1
        "docs/report.txt").1.files ["ws", "docs", "report.txt"] = none ∧
    (FileTools.delete_file false ["ws"]
        (FileTools.write_file ["ws"] ⟨[], [], []⟩ "docs/report.txt" "quarterly figures").1
        "docs/report.txt").1.index = [⟨"report.txt", "quarterly figures"⟩] := by decide

/-- C10 (amended): index removal is invoked strictly before the unlink —
if `remove_file` raises, `delete_file` returns the error with the state
unchanged, so the on-disk file still exists; and on an error-free delete
the file is removed and every IndexEntry whose recorded source equals the
passed filename is removed (entries of the file recorded under a different
source string, such as the basename of a nested path, may remain). -/
theorem C10_delete_index_ordering (base : PathC) (st : WState) (f : String) (p : PathC)
    (hres : FileTools.resolveName base f = .ok p)
    (hex : (lookupFile st.files p).isNone = false) :
    FileTools.delete_file true base st f = (st, .error AgentErr.indexFailure) ∧
    (FileTools.delete_file false base st f).1.index.filter (fun e => e.source = f) = [] ∧
    lookupFile (FileTools.delete_file false base st f).1.files p = none ∧
    (FileTools.delete_file false base st f).2 =
      .ok ("Deleted '" ++ f ++ "' and removed it from the index.") := by
  unfold FileTools.delete_file VSM.remove_file
  rw [hres]
  by_cases h1 : st.index = []
  · simp [hex, h1, eraseFile, lookup_filter_ne, lookup_filter_ne_bang]
  · by_cases h2 : st.index.filter (fun e => e.source = f) = []
    · simp [hex, h1, h2, eraseFile, lookup_filter_ne, lookup_filter_ne_bang]
    · simp [hex, h1, h2, eraseFile, lookup_filter_ne, lookup_filter_ne_bang, filter_ne_then_eq]

/-- C10 (witness): the ordering theorem evaluated on a one-file workspace,
both with an injected index failure and without. -/
theorem C10_delete_index_ordering_witness :
    FileTools.delete_file true ["ws"]
        (FileTools.write_file ["ws"] ⟨[], [], []⟩ "a.txt" "data").1 "a.txt" =
      ((FileTools.write_file ["ws"] ⟨[], [], []⟩ "a.txt" "data").1,
        .error AgentErr.indexFailure) ∧
    ((FileTools.delete_file false ["ws"]
        (FileTools.write_file ["ws"] ⟨[], [], []⟩ "a.txt" "data").1 "a.txt").1.index.filter
      (fun e => e.source = "a.txt") = []) ∧
    lookupFile (FileTools.delete_file false ["ws"]
        (FileTools.write_file ["ws"] ⟨[], [], []⟩ "a.txt" "data").1 "a.txt").1.files
      ["ws", "a.txt"] = none ∧
    (FileTools.delete_file false ["ws"]
        (FileTools.write_file ["ws"] ⟨[], [], []⟩ "a.txt" "data").1 "a.txt").2 =
      .ok ("Deleted '" ++ "a.txt" ++ "' and removed it from the index.") :=
  C10_delete_index_ordering ["ws"] (FileTools.write_file ["ws"] ⟨[], [], []⟩ "a.txt" "data").1
    "a.txt" ["ws", "a.txt"] (by decide) (by decide)
